import Mathlib

/-!
Shallow embedding of `src/generate_icons.py` (NF-Watch icon generator).

The script loads one source image with PIL, converts it to RGBA, resizes it
to five fixed square sizes, derives a circular-cropped variant of each
resize by drawing a filled ellipse into a fresh single-channel mask and
installing that mask as the alpha channel of a copy, writes all images as
PNG files under fixed paths, resizes the original once more to 432x432 as a
foreground asset, and finally deletes a stale
`drawable/ic_launcher_foreground.xml` if it exists.

Images are modelled as finite pixel grids; the filesystem as a pair of
total lookup functions (files and directories); the run as a pure function
from filesystem to filesystem plus an optional error.
-/

namespace NFWatch

/-- An RGBA pixel; each channel is an 8-bit value 0..255.  For the
single-channel ("L") mask images produced by `Image.new "L"` the gray
value is stored in the `r` field. -/
structure Pixel where
  r : Nat
  g : Nat
  b : Nat
  a : Nat
deriving DecidableEq, Repr

/-- The PIL image modes that appear in the script: `RGBA` (after
`convert("RGBA")`), `RGB` / `L` as possible modes of the decoded source. -/
inductive ImageMode
  | RGBA
  | RGB
  | L
deriving DecidableEq, Repr

/-- An in-memory raster image: a mode tag, dimensions, and a row-major
pixel grid (outer list indexed by `y`, inner by `x`). -/
structure Image where
  mode : ImageMode
  width : Nat
  height : Nat
  pix : List (List Pixel)
deriving DecidableEq, Repr

/-- Read the pixel at column `x`, row `y` (black/transparent default when
out of range, matching a total-function view of the grid). -/
def Image.getPixel (img : Image) (x y : Nat) : Pixel :=
  (img.pix.getD y []).getD x ⟨0, 0, 0, 0⟩

/-- Build an image of the given mode and size whose pixel at `(x, y)` is
`f x y`; all derived images in the script are built this way. -/
def mkImage (m : ImageMode) (w h : Nat) (f : Nat → Nat → Pixel) : Image :=
  { mode := m, width := w, height := h,
    pix := (List.range h).map (fun y => (List.range w).map (fun x => f x y)) }

/-- `Image.convert("RGBA")`: normalize to RGBA, adding a fully opaque
alpha channel when the source mode has none (PIL semantics). -/
def Image.convertRGBA (img : Image) : Image :=
  mkImage ImageMode.RGBA img.width img.height (fun x y =>
    let p := img.getPixel x y
    match img.mode with
    | ImageMode.RGBA => p
    | ImageMode.RGB => { p with a := 255 }
    | ImageMode.L => { r := p.r, g := p.r, b := p.r, a := 255 })

/-- Modelled from the spec: `Image.resize` with the LANCZOS filter is
imaging-library code absent from `src/`.  The spec only requires a
deterministic resampling that produces the requested dimensions
(\"Produce a resized square image at the target edge length using a
resampling filter\"), so the filter is modelled as proportional point
sampling; every claim below that involves `resize` depends only on the
output dimensions, the preserved mode, and determinism, never on the
resampling kernel itself. -/
def Image.resize (img : Image) (w h : Nat) : Image :=
  mkImage img.mode w h (fun x y =>
    img.getPixel (x * img.width / w) (y * img.height / h))

/-- `Image.copy()`: a fresh image with the same content; in the pure
embedding the copy is the same value, and the point of the copy in
`create_round_crop` is that `putalpha` is applied to the copy, never to
the caller's image. -/
def Image.copy (img : Image) : Image := img

/-- The PIL filled-ellipse membership test for bounding box
`(0, 0, w, h)`: the pixel `(x, y)`, taken at its PIL coordinate point,
lies inside the ellipse centred at `(w/2, h/2)` with semi-axes `w/2` and
`h/2`.  Stated over `Int` with denominators cleared:
`((2x - w)/w)^2 + ((2y - h)/h)^2 <= 1`. -/
def inEllipse (w h x y : Nat) : Bool :=
  decide (((2 * x : Int) - w) ^ 2 * (h : Int) ^ 2
    + ((2 * y : Int) - h) ^ 2 * (w : Int) ^ 2 ≤ (w : Int) ^ 2 * (h : Int) ^ 2)

/-- `Image.new("L", img.size, 0)` followed by
`ImageDraw.Draw(mask).ellipse((0, 0) + img.size, fill=255)`: a
single-channel mask holding 255 inside the inscribed ellipse and 0
elsewhere. -/
def ellipseMask (w h : Nat) : Image :=
  mkImage ImageMode.L w h (fun x y =>
    if inEllipse w h x y then ⟨255, 255, 255, 255⟩ else ⟨0, 0, 0, 0⟩)

/-- `Image.putalpha(mask)`: replace (not blend) the image's alpha band
with the mask band; the RGB bands are untouched (PIL semantics: "Adds or
replaces the alpha layer in this image"). -/
def Image.putalpha (img mask : Image) : Image :=
  mkImage ImageMode.RGBA img.width img.height (fun x y =>
    { img.getPixel x y with a := (mask.getPixel x y).r })

/-- `create_round_crop(img)` from `src/generate_icons.py` lines 15-21:
draw a filled ellipse spanning the full bounds into a fresh mask, copy the
input, and install the mask as the copy's alpha channel. -/
def create_round_crop (img : Image) : Image :=
  (Image.copy img).putalpha (ellipseMask img.width img.height)

/-- The five density buckets, in the script's (insertion-ordered)
dictionary order: `sizes` at lines 7-13. -/
def sizes : List (String × Nat) :=
  [("mdpi", 48), ("hdpi", 72), ("xhdpi", 96), ("xxhdpi", 144), ("xxxhdpi", 192)]

-- Fixed paths (lines 4-5), with Windows path joining as in `os.path.join`.

def source_image_path : String :=
  "C:\\Users\\Pawan Kumar\\.gemini\\antigravity\\brain\\816f88ac-6aa7-464f-a110-b0a83f6434bd\\premium_watch_icon_1771658973289.png"

def res_dir : String := "d:\\My project\\my app\\NF watch\\app\\src\\main\\res"

def pathJoin (a b : String) : String := a ++ "\\" ++ b

def mipmapDir (density : String) : String := pathJoin res_dir ("mipmap-" ++ density)

def launcherPath (density : String) : String := pathJoin (mipmapDir density) "ic_launcher.png"

def roundPath (density : String) : String := pathJoin (mipmapDir density) "ic_launcher_round.png"

def fg_dir : String := pathJoin res_dir "drawable"

def fgPath : String := pathJoin fg_dir "ic_launcher_foreground.png"

def xml_path : String := pathJoin fg_dir "ic_launcher_foreground.xml"

example : inEllipse 2 2 1 1 = true := by decide

example : inEllipse 2 2 0 0 = false := by decide

example : inEllipse 192 192 0 0 = false := by decide

example : inEllipse 192 192 96 96 = true := by decide

/-- A file on disk: either an encoded raster image (PNG encoding is
modelled as the identity on the pixel data, the library being the sole
encoder/decoder) or opaque non-image bytes. -/
inductive File
  | image (img : Image)
  | raw (data : List Nat)
deriving DecidableEq

/-- The filesystem: a total lookup from paths to optional file contents,
and a directory-existence predicate. -/
structure FS where
  files : String → Option File
  dirs : String → Bool

/-- Write (create or overwrite) an image file at `p` — `Image.save`. -/
def FS.writeImage (fs : FS) (p : String) (img : Image) : FS :=
  { fs with files := fun q => if q = p then some (File.image img) else fs.files q }

/-- `os.makedirs(p, exist_ok=True)`: ensure the directory exists. -/
def FS.mkdirs (fs : FS) (p : String) : FS :=
  { fs with dirs := fun q => if q = p then true else fs.dirs q }

/-- `os.remove(p)`. -/
def FS.removeFile (fs : FS) (p : String) : FS :=
  { fs with files := fun q => if q = p then none else fs.files q }

/-- The filesystem `fs` with the file `f` placed at path `p`. -/
def FS.withFile (fs : FS) (p : String) (f : File) : FS :=
  { files := fun q => if q = p then some f else fs.files q, dirs := fs.dirs }

/-- `os.path.exists` restricted to files, as used on `xml_path`. -/
def FS.exists (fs : FS) (p : String) : Bool :=
  (fs.files p).isSome

/-- `Image.open(p)`: decode the file at `p`, failing (`none`) when the
path is absent or not a decodable raster image. -/
def openImage (fs : FS) (p : String) : Option Image :=
  match fs.files p with
  | some (File.image img) => some img
  | _ => none

/-- The only error the embedded run distinguishes: the source image could
not be opened/decoded (missing file or undecodable bytes). -/
inductive RunError
  | decodeError
deriving DecidableEq, Repr

/-- One iteration of the loop at lines 26-34: ensure the bucket's mipmap
directory, write the resized `ic_launcher.png`, then the round-cropped
`ic_launcher_round.png`. -/
def processBucket (img : Image) (fs : FS) (entry : String × Nat) : FS :=
  ((fs.mkdirs (mipmapDir entry.1)).writeImage (launcherPath entry.1)
      (img.resize entry.2 entry.2)).writeImage (roundPath entry.1)
    (create_round_crop (img.resize entry.2 entry.2))

/-- All eleven image writes of a run (lines 26-41): the bucket loop over
`order`, then the drawable directory and the 432x432 foreground image. -/
def writePhase (order : List (String × Nat)) (img : Image) (fs : FS) : FS :=
  ((order.foldl (processBucket img) fs).mkdirs fg_dir).writeImage fgPath
    (img.resize 432 432)

/-- Everything the script does after the source image has been decoded
and converted (lines 26-46), with the bucket loop running over `order`
(the script itself uses `sizes` order): the write phase, then the
conditional deletion of the stale XML foreground (lines 44-46). -/
def runFromOrder (order : List (String × Nat)) (img : Image) (fs : FS) : FS :=
  if (writePhase order img fs).exists xml_path then
    (writePhase order img fs).removeFile xml_path
  else
    writePhase order img fs

/-- Lines 26-46 in the script's own order. -/
def runFrom (img : Image) (fs : FS) : FS :=
  runFromOrder sizes img fs

/-- The whole module body (lines 23-46): decode and convert the source,
then produce every output; on a decode failure the run aborts with the
filesystem untouched. -/
def run (fs : FS) : FS × Option RunError :=
  match openImage fs source_image_path with
  | none => (fs, some RunError.decodeError)
  | some img0 => (runFrom img0.convertRGBA fs, none)

/-! ### Lookup characterizations of the run -/

theorem files_processBucket (img : Image) (fs : FS) (e : String × Nat) (q : String) :
    (processBucket img fs e).files q =
      if q = roundPath e.1 then some (File.image (create_round_crop (img.resize e.2 e.2)))
      else if q = launcherPath e.1 then some (File.image (img.resize e.2 e.2))
      else fs.files q := rfl

/-- What the write phase holds at each path: the eleven output paths map
to their freshly produced images (later writes listed first), and every
other path is untouched. -/
theorem files_writePhase (img : Image) (fs : FS) (q : String) :
    (writePhase sizes img fs).files q =
      if q = fgPath then some (File.image (img.resize 432 432))
      else if q = roundPath "xxxhdpi" then some (File.image (create_round_crop (img.resize 192 192)))
      else if q = launcherPath "xxxhdpi" then some (File.image (img.resize 192 192))
      else if q = roundPath "xxhdpi" then some (File.image (create_round_crop (img.resize 144 144)))
      else if q = launcherPath "xxhdpi" then some (File.image (img.resize 144 144))
      else if q = roundPath "xhdpi" then some (File.image (create_round_crop (img.resize 96 96)))
      else if q = launcherPath "xhdpi" then some (File.image (img.resize 96 96))
      else if q = roundPath "hdpi" then some (File.image (create_round_crop (img.resize 72 72)))
      else if q = launcherPath "hdpi" then some (File.image (img.resize 72 72))
      else if q = roundPath "mdpi" then some (File.image (create_round_crop (img.resize 48 48)))
      else if q = launcherPath "mdpi" then some (File.image (img.resize 48 48))
      else fs.files q := rfl

theorem dirs_writePhase (img : Image) (fs : FS) (d : String) :
    (writePhase sizes img fs).dirs d =
      if d = fg_dir then true
      else if d = mipmapDir "xxxhdpi" then true
      else if d = mipmapDir "xxhdpi" then true
      else if d = mipmapDir "xhdpi" then true
      else if d = mipmapDir "hdpi" then true
      else if d = mipmapDir "mdpi" then true
      else fs.dirs d := rfl

/-- The write phase never touches `xml_path` (none of the eleven output
paths is the stale XML path). -/
theorem writePhase_xml (img : Image) (fs : FS) :
    (writePhase sizes img fs).files xml_path = fs.files xml_path := by
  rw [files_writePhase]
  rw [if_neg (by decide), if_neg (by decide), if_neg (by decide), if_neg (by decide),
    if_neg (by decide), if_neg (by decide), if_neg (by decide), if_neg (by decide),
    if_neg (by decide), if_neg (by decide), if_neg (by decide)]

/-- After a run, a path holds: nothing at `xml_path` is special-cased to
`none`; every other path holds whatever the write phase put there. -/
theorem files_runFromOrder (order : List (String × Nat)) (img : Image) (fs : FS) (q : String)
    (hxml : (writePhase order img fs).files xml_path = fs.files xml_path) :
    (runFromOrder order img fs).files q =
      if q = xml_path ∧ fs.files xml_path = none then fs.files q
      else if q = xml_path then none
      else (writePhase order img fs).files q := by
  by_cases h0 : fs.files xml_path = none
  · have hx : ¬ (writePhase order img fs).exists xml_path = true := by
      rw [FS.exists, hxml, h0]
      exact Bool.false_ne_true
    unfold runFromOrder
    rw [if_neg hx]
    by_cases hq : q = xml_path
    · subst hq
      rw [if_pos ⟨rfl, h0⟩]
      exact hxml
    · rw [if_neg (fun h => hq h.1), if_neg hq]
  · have hx : (writePhase order img fs).exists xml_path = true := by
      rw [FS.exists, hxml]
      exact Option.isSome_iff_ne_none.mpr h0
    unfold runFromOrder
    rw [if_pos hx]
    show (if q = xml_path then none else (writePhase order img fs).files q) = _
    by_cases hq : q = xml_path
    · subst hq
      rw [if_pos rfl, if_neg (fun h => h0 h.2)]
    · rw [if_neg hq, if_neg (fun h => hq h.1)]

/-- Whatever the run does at `xml_path`, the result there is `none`:
either the stale file existed and was removed, or it never existed. -/
theorem runFromOrder_xml (order : List (String × Nat)) (img : Image) (fs : FS)
    (hxml : (writePhase order img fs).files xml_path = fs.files xml_path) :
    (runFromOrder order img fs).files xml_path = none := by
  rw [files_runFromOrder order img fs xml_path hxml]
  by_cases h0 : fs.files xml_path = none
  · rw [if_pos ⟨rfl, h0⟩, h0]
  · rw [if_neg (by intro h; exact h0 h.2), if_pos rfl]

theorem dirs_runFromOrder (order : List (String × Nat)) (img : Image) (fs : FS) (d : String) :
    (runFromOrder order img fs).dirs d = (writePhase order img fs).dirs d := by
  unfold runFromOrder
  by_cases hx : (writePhase order img fs).exists xml_path = true
  · rw [if_pos hx]; rfl
  · rw [if_neg hx]

theorem files_runFrom (img : Image) (fs : FS) (q : String) :
    (runFrom img fs).files q =
      if q = xml_path ∧ fs.files xml_path = none then fs.files q
      else if q = xml_path then none
      else (writePhase sizes img fs).files q :=
  files_runFromOrder sizes img fs q (writePhase_xml img fs)

theorem runFrom_xml (img : Image) (fs : FS) :
    (runFrom img fs).files xml_path = none :=
  runFromOrder_xml sizes img fs (writePhase_xml img fs)

/-- A path other than `xml_path` and the eleven output paths is untouched
by the run. -/
theorem files_runFrom_other (img : Image) (fs : FS) (q : String)
    (hq : q ≠ xml_path) (h1 : q ≠ fgPath)
    (h2 : q ≠ roundPath "xxxhdpi") (h3 : q ≠ launcherPath "xxxhdpi")
    (h4 : q ≠ roundPath "xxhdpi") (h5 : q ≠ launcherPath "xxhdpi")
    (h6 : q ≠ roundPath "xhdpi") (h7 : q ≠ launcherPath "xhdpi")
    (h8 : q ≠ roundPath "hdpi") (h9 : q ≠ launcherPath "hdpi")
    (h10 : q ≠ roundPath "mdpi") (h11 : q ≠ launcherPath "mdpi") :
    (runFrom img fs).files q = fs.files q := by
  rw [files_runFrom, if_neg (fun h => hq h.1), if_neg hq, files_writePhase,
    if_neg h1, if_neg h2, if_neg h3, if_neg h4, if_neg h5, if_neg h6, if_neg h7,
    if_neg h8, if_neg h9, if_neg h10, if_neg h11]

/-! ### Pixel-level facts about the derived images -/

theorem getPixel_mkImage (m : ImageMode) (w h : Nat) (f : Nat → Nat → Pixel)
    (x y : Nat) (hx : x < w) (hy : y < h) :
    (mkImage m w h f).getPixel x y = f x y := by
  simp [Image.getPixel, mkImage, List.getD_eq_getElem?_getD, List.getElem?_range, hx, hy]

/-- The round crop of any image keeps the RGB channels and replaces the
alpha channel with the ellipse mask: 255 inside, 0 outside. -/
theorem roundCrop_getPixel (img : Image) (x y : Nat)
    (hx : x < img.width) (hy : y < img.height) :
    (create_round_crop img).getPixel x y =
      { img.getPixel x y with
        a := if inEllipse img.width img.height x y then 255 else 0 } := by
  have hmask : ((ellipseMask img.width img.height).getPixel x y).r
      = (if inEllipse img.width img.height x y then 255 else 0) := by
    rw [ellipseMask, getPixel_mkImage _ _ _ _ x y hx hy]
    by_cases hc : inEllipse img.width img.height x y
    · rw [if_pos hc, if_pos hc]
    · rw [if_neg hc, if_neg hc]
  rw [create_round_crop, Image.copy, Image.putalpha,
    getPixel_mkImage _ _ _ _ x y hx hy, hmask]

theorem roundCrop_width (img : Image) : (create_round_crop img).width = img.width := rfl

theorem roundCrop_height (img : Image) : (create_round_crop img).height = img.height := rfl

theorem resize_width (img : Image) (w h : Nat) : (img.resize w h).width = w := rfl

theorem resize_height (img : Image) (w h : Nat) : (img.resize w h).height = h := rfl

theorem resize_mode (img : Image) (w h : Nat) : (img.resize w h).mode = img.mode := rfl

theorem convertRGBA_mode (img : Image) : img.convertRGBA.mode = ImageMode.RGBA := rfl

/-- The run's output at `mipmap-mdpi/ic_launcher.png`. -/
theorem runFrom_launcher_mdpi (img : Image) (fs : FS) :
    (runFrom img fs).files (launcherPath "mdpi") = some (File.image (img.resize 48 48)) := by
  rw [files_runFrom, if_neg (fun h => absurd h.1 (by decide)), if_neg (by decide),
    files_writePhase, if_neg (by decide), if_neg (by decide), if_neg (by decide),
    if_neg (by decide), if_neg (by decide), if_neg (by decide), if_neg (by decide),
    if_neg (by decide), if_neg (by decide), if_neg (by decide), if_pos rfl]

theorem runFrom_fg (img : Image) (fs : FS) :
    (runFrom img fs).files (fgPath) = some (File.image (img.resize 432 432)) := by
  rw [files_runFrom, if_neg (fun h => absurd h.1 (by decide)), if_neg (by decide),
    files_writePhase, if_pos rfl]

theorem runFrom_round_xxxhdpi (img : Image) (fs : FS) :
    (runFrom img fs).files (roundPath "xxxhdpi") = some (File.image (create_round_crop (img.resize 192 192))) := by
  rw [files_runFrom, if_neg (fun h => absurd h.1 (by decide)), if_neg (by decide),
    files_writePhase, if_neg (by decide), if_pos rfl]

theorem runFrom_launcher_xxxhdpi (img : Image) (fs : FS) :
    (runFrom img fs).files (launcherPath "xxxhdpi") = some (File.image (img.resize 192 192)) := by
  rw [files_runFrom, if_neg (fun h => absurd h.1 (by decide)), if_neg (by decide),
    files_writePhase, if_neg (by decide), if_neg (by decide), if_pos rfl]

theorem runFrom_round_xxhdpi (img : Image) (fs : FS) :
    (runFrom img fs).files (roundPath "xxhdpi") = some (File.image (create_round_crop (img.resize 144 144))) := by
  rw [files_runFrom, if_neg (fun h => absurd h.1 (by decide)), if_neg (by decide),
    files_writePhase, if_neg (by decide), if_neg (by decide), if_neg (by decide), if_pos rfl]

theorem runFrom_launcher_xxhdpi (img : Image) (fs : FS) :
    (runFrom img fs).files (launcherPath "xxhdpi") = some (File.image (img.resize 144 144)) := by
  rw [files_runFrom, if_neg (fun h => absurd h.1 (by decide)), if_neg (by decide),
    files_writePhase, if_neg (by decide), if_neg (by decide), if_neg (by decide), if_neg (by decide), if_pos rfl]

theorem runFrom_round_xhdpi (img : Image) (fs : FS) :
    (runFrom img fs).files (roundPath "xhdpi") = some (File.image (create_round_crop (img.resize 96 96))) := by
  rw [files_runFrom, if_neg (fun h => absurd h.1 (by decide)), if_neg (by decide),
    files_writePhase, if_neg (by decide), if_neg (by decide), if_neg (by decide), if_neg (by decide), if_neg (by decide), if_pos rfl]

theorem runFrom_launcher_xhdpi (img : Image) (fs : FS) :
    (runFrom img fs).files (launcherPath "xhdpi") = some (File.image (img.resize 96 96)) := by
  rw [files_runFrom, if_neg (fun h => absurd h.1 (by decide)), if_neg (by decide),
    files_writePhase, if_neg (by decide), if_neg (by decide), if_neg (by decide), if_neg (by decide), if_neg (by decide), if_neg (by decide), if_pos rfl]

theorem runFrom_round_hdpi (img : Image) (fs : FS) :
    (runFrom img fs).files (roundPath "hdpi") = some (File.image (create_round_crop (img.resize 72 72))) := by
  rw [files_runFrom, if_neg (fun h => absurd h.1 (by decide)), if_neg (by decide),
    files_writePhase, if_neg (by decide), if_neg (by decide), if_neg (by decide), if_neg (by decide), if_neg (by decide), if_neg (by decide), if_neg (by decide), if_pos rfl]

theorem runFrom_launcher_hdpi (img : Image) (fs : FS) :
    (runFrom img fs).files (launcherPath "hdpi") = some (File.image (img.resize 72 72)) := by
  rw [files_runFrom, if_neg (fun h => absurd h.1 (by decide)), if_neg (by decide),
    files_writePhase, if_neg (by decide), if_neg (by decide), if_neg (by decide), if_neg (by decide), if_neg (by decide), if_neg (by decide), if_neg (by decide), if_neg (by decide), if_pos rfl]

theorem runFrom_round_mdpi (img : Image) (fs : FS) :
    (runFrom img fs).files (roundPath "mdpi") = some (File.image (create_round_crop (img.resize 48 48))) := by
  rw [files_runFrom, if_neg (fun h => absurd h.1 (by decide)), if_neg (by decide),
    files_writePhase, if_neg (by decide), if_neg (by decide), if_neg (by decide), if_neg (by decide), if_neg (by decide), if_neg (by decide), if_neg (by decide), if_neg (by decide), if_neg (by decide), if_pos rfl]


/-! ### Commutation and idempotence of the write steps -/

theorem FS.ext' : ∀ {fs1 fs2 : FS}, fs1.files = fs2.files → fs1.dirs = fs2.dirs → fs1 = fs2 := by
  intro ⟨f1, d1⟩ ⟨f2, d2⟩ hf hd
  cases hf
  cases hd
  rfl

/-- Two bucket iterations that target different paths commute. -/
theorem processBucket_comm_aux (img : Image) (fs : FS) (a b : String × Nat)
    (hd : mipmapDir a.1 ≠ mipmapDir b.1)
    (h1 : launcherPath a.1 ≠ launcherPath b.1)
    (h2 : launcherPath a.1 ≠ roundPath b.1)
    (h3 : roundPath a.1 ≠ launcherPath b.1)
    (h4 : roundPath a.1 ≠ roundPath b.1) :
    processBucket img (processBucket img fs a) b
      = processBucket img (processBucket img fs b) a := by
  apply FS.ext'
  · funext q
    dsimp only [processBucket, FS.writeImage, FS.mkdirs]
    split_ifs <;> simp_all
  · funext q
    dsimp only [processBucket, FS.writeImage, FS.mkdirs]
    split_ifs <;> simp_all

/-- Distinct entries of the bucket table write to disjoint paths, so the
corresponding iterations commute. -/
theorem processBucket_comm (img : Image) (fs : FS) (a b : String × Nat)
    (ha : a ∈ sizes) (hb : b ∈ sizes) (hab : a ≠ b) :
    processBucket img (processBucket img fs a) b
      = processBucket img (processBucket img fs b) a := by
  fin_cases ha <;> fin_cases hb <;>
    first
      | (exact absurd rfl hab)
      | (exact processBucket_comm_aux img fs _ _ (by decide) (by decide) (by decide)
          (by decide) (by decide))

/-- Folding the bucket loop over any permutation of a duplicate-free list
of bucket entries produces the same filesystem. -/
theorem foldl_processBucket_perm (img : Image) (l₁ l₂ : List (String × Nat))
    (hp : l₁.Perm l₂) :
    (∀ x ∈ l₁, x ∈ sizes) → l₁.Nodup →
    ∀ fs : FS, l₁.foldl (processBucket img) fs = l₂.foldl (processBucket img) fs := by
  induction hp with
  | nil =>
      intro _ _ fs
      rfl
  | cons x p ih =>
      intro hmem hnd fs
      simp only [List.foldl_cons]
      exact ih (fun z hz => hmem z (List.mem_cons_of_mem x hz)) (List.Nodup.of_cons hnd) _
  | swap x y l =>
      intro hmem hnd fs
      simp only [List.foldl_cons]
      have hx : x ∈ sizes := hmem x (by simp)
      have hy : y ∈ sizes := hmem y (by simp)
      have hyx : y ≠ x := by
        rcases List.nodup_cons.mp hnd with ⟨hy1, -⟩
        exact fun h => hy1 (h ▸ List.mem_cons_self x l)
      rw [processBucket_comm img fs y x hy hx hyx]
  | trans p1 p2 ih1 ih2 =>
      intro hmem hnd fs
      rw [ih1 hmem hnd fs,
        ih2 (fun z hz => hmem z (p1.mem_iff.mpr hz)) (p1.nodup_iff.mp hnd) fs]

theorem sizes_nodup : sizes.Nodup := by decide

theorem dirs_runFrom (img : Image) (fs : FS) (d : String) :
    (runFrom img fs).dirs d = (writePhase sizes img fs).dirs d :=
  dirs_runFromOrder sizes img fs d

theorem runFrom_dir_fg (img : Image) (fs : FS) : (runFrom img fs).dirs fg_dir = true := by
  rw [dirs_runFrom, dirs_writePhase, if_pos rfl]

theorem runFrom_dir_xxxhdpi (img : Image) (fs : FS) :
    (runFrom img fs).dirs (mipmapDir "xxxhdpi") = true := by
  rw [dirs_runFrom, dirs_writePhase, if_neg (by decide), if_pos rfl]

theorem runFrom_dir_xxhdpi (img : Image) (fs : FS) :
    (runFrom img fs).dirs (mipmapDir "xxhdpi") = true := by
  rw [dirs_runFrom, dirs_writePhase, if_neg (by decide), if_neg (by decide), if_pos rfl]

theorem runFrom_dir_xhdpi (img : Image) (fs : FS) :
    (runFrom img fs).dirs (mipmapDir "xhdpi") = true := by
  rw [dirs_runFrom, dirs_writePhase, if_neg (by decide), if_neg (by decide),
    if_neg (by decide), if_pos rfl]

theorem runFrom_dir_hdpi (img : Image) (fs : FS) :
    (runFrom img fs).dirs (mipmapDir "hdpi") = true := by
  rw [dirs_runFrom, dirs_writePhase, if_neg (by decide), if_neg (by decide),
    if_neg (by decide), if_neg (by decide), if_pos rfl]

theorem runFrom_dir_mdpi (img : Image) (fs : FS) :
    (runFrom img fs).dirs (mipmapDir "mdpi") = true := by
  rw [dirs_runFrom, dirs_writePhase, if_neg (by decide), if_neg (by decide),
    if_neg (by decide), if_neg (by decide), if_neg (by decide), if_pos rfl]

theorem runFrom_dirs_other (img : Image) (fs : FS) (d : String)
    (j1 : d ≠ fg_dir) (j2 : d ≠ mipmapDir "xxxhdpi") (j3 : d ≠ mipmapDir "xxhdpi")
    (j4 : d ≠ mipmapDir "xhdpi") (j5 : d ≠ mipmapDir "hdpi") (j6 : d ≠ mipmapDir "mdpi") :
    (runFrom img fs).dirs d = fs.dirs d := by
  rw [dirs_runFrom, dirs_writePhase, if_neg j1, if_neg j2, if_neg j3, if_neg j4,
    if_neg j5, if_neg j6]

/-- Running the write-and-clean phase twice with the same decoded image
leaves the filesystem exactly as after the first time. -/
theorem runFrom_idem (img : Image) (fs : FS) :
    runFrom img (runFrom img fs) = runFrom img fs := by
  apply FS.ext'
  · funext q
    by_cases k0 : q = xml_path
    · rw [k0, runFrom_xml, runFrom_xml]
    by_cases k1 : q = fgPath
    · rw [k1, runFrom_fg, runFrom_fg]
    by_cases k2 : q = roundPath "xxxhdpi"
    · rw [k2, runFrom_round_xxxhdpi, runFrom_round_xxxhdpi]
    by_cases k3 : q = launcherPath "xxxhdpi"
    · rw [k3, runFrom_launcher_xxxhdpi, runFrom_launcher_xxxhdpi]
    by_cases k4 : q = roundPath "xxhdpi"
    · rw [k4, runFrom_round_xxhdpi, runFrom_round_xxhdpi]
    by_cases k5 : q = launcherPath "xxhdpi"
    · rw [k5, runFrom_launcher_xxhdpi, runFrom_launcher_xxhdpi]
    by_cases k6 : q = roundPath "xhdpi"
    · rw [k6, runFrom_round_xhdpi, runFrom_round_xhdpi]
    by_cases k7 : q = launcherPath "xhdpi"
    · rw [k7, runFrom_launcher_xhdpi, runFrom_launcher_xhdpi]
    by_cases k8 : q = roundPath "hdpi"
    · rw [k8, runFrom_round_hdpi, runFrom_round_hdpi]
    by_cases k9 : q = launcherPath "hdpi"
    · rw [k9, runFrom_launcher_hdpi, runFrom_launcher_hdpi]
    by_cases k10 : q = roundPath "mdpi"
    · rw [k10, runFrom_round_mdpi, runFrom_round_mdpi]
    by_cases k11 : q = launcherPath "mdpi"
    · rw [k11, runFrom_launcher_mdpi, runFrom_launcher_mdpi]
    rw [files_runFrom_other img (runFrom img fs) q k0 k1 k2 k3 k4 k5 k6 k7 k8 k9 k10 k11,
      files_runFrom_other img fs q k0 k1 k2 k3 k4 k5 k6 k7 k8 k9 k10 k11]
  · funext d
    by_cases j1 : d = fg_dir
    · rw [j1, runFrom_dir_fg, runFrom_dir_fg]
    by_cases j2 : d = mipmapDir "xxxhdpi"
    · rw [j2, runFrom_dir_xxxhdpi, runFrom_dir_xxxhdpi]
    by_cases j3 : d = mipmapDir "xxhdpi"
    · rw [j3, runFrom_dir_xxhdpi, runFrom_dir_xxhdpi]
    by_cases j4 : d = mipmapDir "xhdpi"
    · rw [j4, runFrom_dir_xhdpi, runFrom_dir_xhdpi]
    by_cases j5 : d = mipmapDir "hdpi"
    · rw [j5, runFrom_dir_hdpi, runFrom_dir_hdpi]
    by_cases j6 : d = mipmapDir "mdpi"
    · rw [j6, runFrom_dir_mdpi, runFrom_dir_mdpi]
    rw [runFrom_dirs_other img (runFrom img fs) d j1 j2 j3 j4 j5 j6,
      runFrom_dirs_other img fs d j1 j2 j3 j4 j5 j6]

theorem openImage_congr (fs1 fs2 : FS) (p : String)
    (h : fs1.files p = fs2.files p) : openImage fs1 p = openImage fs2 p := by
  unfold openImage
  rw [h]

/-- The run never touches the source image file (its path is none of the
output paths). -/
theorem runFrom_source (img : Image) (fs : FS) :
    (runFrom img fs).files source_image_path = fs.files source_image_path :=
  files_runFrom_other img fs source_image_path (by decide) (by decide) (by decide)
    (by decide) (by decide) (by decide) (by decide) (by decide) (by decide) (by decide)
    (by decide) (by decide)

/-! ### Derived predicates and the event trace of a run -/

/-- The pixel `(x, y)` of an `n` by `n` image lies at Euclidean distance
from the image centre `(n/2, n/2)` strictly greater than the radius
`n/2`; stated over `Int` with denominators cleared
(`(x - n/2)^2 + (y - n/2)^2 > (n/2)^2` times 4). -/
def outsideCircle (n x y : Nat) : Prop :=
  ((2 * x : Int) - n) ^ 2 + ((2 * y : Int) - n) ^ 2 > (n : Int) ^ 2

instance (n x y : Nat) : Decidable (outsideCircle n x y) :=
  inferInstanceAs (Decidable (_ > _))

/-- Every in-range pixel of the image is fully transparent. -/
def fullyTransparent (img : Image) : Prop :=
  ∀ x y : Nat, x < img.width → y < img.height → (img.getPixel x y).a = 0

/-- A pixel strictly outside the inscribed circle of a square image is
outside the drawn ellipse. -/
theorem inEllipse_eq_false_of_outside (n x y : Nat) (hn : 0 < n)
    (h : outsideCircle n x y) : inEllipse n n x y = false := by
  unfold inEllipse
  rw [decide_eq_false_iff_not]
  intro hc
  unfold outsideCircle at h
  have hn' : (0 : Int) < (n : Int) := by exact_mod_cast hn
  have hn2 : (0 : Int) < (n : Int) ^ 2 := pow_pos hn' 2
  nlinarith [mul_lt_mul_of_pos_right h hn2, hc]

/-- A filesystem effect of the script, in program order. -/
inductive Event
  | mkdirEv (p : String)
  | writeEv (p : String) (img : Image)
  | removeEv (p : String)
deriving DecidableEq

def isWriteEv : Event → Bool
  | Event.writeEv _ _ => true
  | _ => false

def isRemoveEv : Event → Bool
  | Event.removeEv _ => true
  | _ => false

/-- The three effects of one bucket iteration (lines 27-34). -/
def bucketEvents (img : Image) (e : String × Nat) : List Event :=
  [Event.mkdirEv (mipmapDir e.1),
   Event.writeEv (launcherPath e.1) (img.resize e.2 e.2),
   Event.writeEv (roundPath e.1) (create_round_crop (img.resize e.2 e.2))]

/-- Every effect of a run up to and including the foreground write
(lines 26-41): five bucket iterations, then the drawable directory and
the foreground image. -/
def writeEvents (img : Image) : List Event :=
  (sizes.map (bucketEvents img)).flatten ++
    [Event.mkdirEv fg_dir, Event.writeEv fgPath (img.resize 432 432)]

/-- The full effect trace of a run (lines 26-46): the write phase, then
the stale-XML removal when the file (still) exists. -/
def runEvents (img : Image) (xmlPresent : Bool) : List Event :=
  writeEvents img ++ (if xmlPresent then [Event.removeEv xml_path] else [])

def applyEvent (fs : FS) : Event → FS
  | Event.mkdirEv p => fs.mkdirs p
  | Event.writeEv p i => fs.writeImage p i
  | Event.removeEv p => fs.removeFile p

def applyEvents (fs : FS) (es : List Event) : FS :=
  es.foldl applyEvent fs

/-- The event trace is sound: replaying it is exactly the run (the XML is
present for the removal test precisely when it was present initially,
since no write touches it). -/
theorem runEvents_sound (img : Image) (fs : FS) :
    runFrom img fs
      = applyEvents fs (runEvents img ((writePhase sizes img fs).exists xml_path)) := by
  by_cases hx : (writePhase sizes img fs).exists xml_path = true
  · rw [hx]
    unfold runFrom runFromOrder
    rw [if_pos hx]
    rfl
  · have hx' : (writePhase sizes img fs).exists xml_path = false := by
      revert hx
      cases (writePhase sizes img fs).exists xml_path <;> simp
    rw [hx']
    unfold runFrom runFromOrder
    rw [if_neg hx]
    rfl

/-! ### Concrete instances used by witnesses and counterexamples -/

/-- A 2x2 RGBA image whose every pixel is half-transparent (alpha 128). -/
def halfAlphaImg : Image :=
  ⟨ImageMode.RGBA, 2, 2,
    [[⟨10, 20, 30, 128⟩, ⟨10, 20, 30, 128⟩],
     [⟨10, 20, 30, 128⟩, ⟨10, 20, 30, 128⟩]]⟩

/-- A 2x2 RGB (no alpha) source image. -/
def witImage : Image :=
  ⟨ImageMode.RGB, 2, 2,
    [[⟨1, 2, 3, 0⟩, ⟨4, 5, 6, 0⟩],
     [⟨7, 8, 9, 0⟩, ⟨2, 2, 2, 0⟩]]⟩

/-- The empty filesystem. -/
def emptyFS : FS :=
  { files := fun _ => none, dirs := fun _ => false }

/-- A filesystem holding only the source image. -/
def witFS : FS :=
  { files := fun q => if q = source_image_path then some (File.image witImage) else none,
    dirs := fun _ => false }

/-! ### The claims -/

/-- **C1** (amended): for every round-crop derivative, the dimensions are
those of its source, the RGB channels are identical to the source's
everywhere, and the alpha channel is wholly replaced by the circular
mask: 255 at every pixel inside the inscribed ellipse — even where the
source was partially transparent — and 0 outside it. -/
theorem claim1_round_crop (img : Image) (x y : Nat)
    (hx : x < img.width) (hy : y < img.height) :
    (create_round_crop img).width = img.width ∧
    (create_round_crop img).height = img.height ∧
    ((create_round_crop img).getPixel x y).r = (img.getPixel x y).r ∧
    ((create_round_crop img).getPixel x y).g = (img.getPixel x y).g ∧
    ((create_round_crop img).getPixel x y).b = (img.getPixel x y).b ∧
    ((create_round_crop img).getPixel x y).a
      = (if inEllipse img.width img.height x y then 255 else 0) := by
  refine ⟨rfl, rfl, ?_, ?_, ?_, ?_⟩ <;> rw [roundCrop_getPixel img x y hx hy]

theorem claim1_round_crop_witness :
    (1 < halfAlphaImg.width) ∧ (1 < halfAlphaImg.height) ∧
    ((create_round_crop halfAlphaImg).getPixel 1 1).a
      = (if inEllipse halfAlphaImg.width halfAlphaImg.height 1 1 then 255 else 0) :=
  ⟨by decide, by decide,
    (claim1_round_crop halfAlphaImg 1 1 (by decide) (by decide)).2.2.2.2.2⟩

/-- **C1** counterexample: pixel `(1, 1)` of a uniformly half-transparent
2x2 image lies inside the inscribed circle, yet the round crop gives it
alpha 255, not its source alpha 128 — `putalpha` replaces the alpha
channel instead of keeping existing partial transparency, so the round
crop is not identical to its source inside the circle. -/
theorem claim1_counterexample :
    inEllipse halfAlphaImg.width halfAlphaImg.height 1 1 = true ∧
    (halfAlphaImg.getPixel 1 1).a = 128 ∧
    ((create_round_crop halfAlphaImg).getPixel 1 1).a = 255 := by
  decide

/-- **C2**: after a successful run, each bucket's `ic_launcher_round.png`
has exactly the dimensions of that bucket's `ic_launcher.png`, every
pixel at Euclidean distance from the image centre strictly greater than
the radius has alpha 0, and (for a not-fully-transparent source) the
centre pixel has positive alpha. -/
theorem claim2_round_output (fs fs' : FS) (img0 : Image)
    (hopen : openImage fs source_image_path = some img0)
    (hrun : run fs = (fs', none))
    (hnt : ¬ fullyTransparent img0.convertRGBA)
    (e : String × Nat) (he : e ∈ sizes) :
    ∃ iL iR : Image,
      fs'.files (launcherPath e.1) = some (File.image iL) ∧
      fs'.files (roundPath e.1) = some (File.image iR) ∧
      iR.width = iL.width ∧ iR.height = iL.height ∧
      (∀ x y : Nat, x < iR.width → y < iR.height → outsideCircle e.2 x y →
        (iR.getPixel x y).a = 0) ∧
      0 < (iR.getPixel (e.2 / 2) (e.2 / 2)).a := by
  simp only [run, hopen] at hrun
  injection hrun with hfs hnone
  subst hfs
  fin_cases he
  · refine ⟨img0.convertRGBA.resize 48 48, create_round_crop (img0.convertRGBA.resize 48 48),
      runFrom_launcher_mdpi _ fs, runFrom_round_mdpi _ fs, rfl, rfl, ?_, ?_⟩
    · intro x y hx hy hout
      rw [roundCrop_getPixel (img0.convertRGBA.resize 48 48) x y hx hy]
      have hfalse : inEllipse (img0.convertRGBA.resize 48 48).width
          (img0.convertRGBA.resize 48 48).height x y = false :=
        inEllipse_eq_false_of_outside 48 x y (by norm_num) hout
      rw [hfalse]
      rfl
    · have hxc : 24 < (img0.convertRGBA.resize 48 48).width := (by decide : 24 < 48)
      have hyc : 24 < (img0.convertRGBA.resize 48 48).height := (by decide : 24 < 48)
      show 0 < ((create_round_crop (img0.convertRGBA.resize 48 48)).getPixel 24 24).a
      rw [roundCrop_getPixel (img0.convertRGBA.resize 48 48) 24 24 hxc hyc]
      have htrue : inEllipse (img0.convertRGBA.resize 48 48).width
          (img0.convertRGBA.resize 48 48).height 24 24 = true :=
        (by decide : inEllipse 48 48 24 24 = true)
      rw [htrue]
      exact (by decide : (0 : Nat) < 255)
  · refine ⟨img0.convertRGBA.resize 72 72, create_round_crop (img0.convertRGBA.resize 72 72),
      runFrom_launcher_hdpi _ fs, runFrom_round_hdpi _ fs, rfl, rfl, ?_, ?_⟩
    · intro x y hx hy hout
      rw [roundCrop_getPixel (img0.convertRGBA.resize 72 72) x y hx hy]
      have hfalse : inEllipse (img0.convertRGBA.resize 72 72).width
          (img0.convertRGBA.resize 72 72).height x y = false :=
        inEllipse_eq_false_of_outside 72 x y (by norm_num) hout
      rw [hfalse]
      rfl
    · have hxc : 36 < (img0.convertRGBA.resize 72 72).width := (by decide : 36 < 72)
      have hyc : 36 < (img0.convertRGBA.resize 72 72).height := (by decide : 36 < 72)
      show 0 < ((create_round_crop (img0.convertRGBA.resize 72 72)).getPixel 36 36).a
      rw [roundCrop_getPixel (img0.convertRGBA.resize 72 72) 36 36 hxc hyc]
      have htrue : inEllipse (img0.convertRGBA.resize 72 72).width
          (img0.convertRGBA.resize 72 72).height 36 36 = true :=
        (by decide : inEllipse 72 72 36 36 = true)
      rw [htrue]
      exact (by decide : (0 : Nat) < 255)
  · refine ⟨img0.convertRGBA.resize 96 96, create_round_crop (img0.convertRGBA.resize 96 96),
      runFrom_launcher_xhdpi _ fs, runFrom_round_xhdpi _ fs, rfl, rfl, ?_, ?_⟩
    · intro x y hx hy hout
      rw [roundCrop_getPixel (img0.convertRGBA.resize 96 96) x y hx hy]
      have hfalse : inEllipse (img0.convertRGBA.resize 96 96).width
          (img0.convertRGBA.resize 96 96).height x y = false :=
        inEllipse_eq_false_of_outside 96 x y (by norm_num) hout
      rw [hfalse]
      rfl
    · have hxc : 48 < (img0.convertRGBA.resize 96 96).width := (by decide : 48 < 96)
      have hyc : 48 < (img0.convertRGBA.resize 96 96).height := (by decide : 48 < 96)
      show 0 < ((create_round_crop (img0.convertRGBA.resize 96 96)).getPixel 48 48).a
      rw [roundCrop_getPixel (img0.convertRGBA.resize 96 96) 48 48 hxc hyc]
      have htrue : inEllipse (img0.convertRGBA.resize 96 96).width
          (img0.convertRGBA.resize 96 96).height 48 48 = true :=
        (by decide : inEllipse 96 96 48 48 = true)
      rw [htrue]
      exact (by decide : (0 : Nat) < 255)
  · refine ⟨img0.convertRGBA.resize 144 144, create_round_crop (img0.convertRGBA.resize 144 144),
      runFrom_launcher_xxhdpi _ fs, runFrom_round_xxhdpi _ fs, rfl, rfl, ?_, ?_⟩
    · intro x y hx hy hout
      rw [roundCrop_getPixel (img0.convertRGBA.resize 144 144) x y hx hy]
      have hfalse : inEllipse (img0.convertRGBA.resize 144 144).width
          (img0.convertRGBA.resize 144 144).height x y = false :=
        inEllipse_eq_false_of_outside 144 x y (by norm_num) hout
      rw [hfalse]
      rfl
    · have hxc : 72 < (img0.convertRGBA.resize 144 144).width := (by decide : 72 < 144)
      have hyc : 72 < (img0.convertRGBA.resize 144 144).height := (by decide : 72 < 144)
      show 0 < ((create_round_crop (img0.convertRGBA.resize 144 144)).getPixel 72 72).a
      rw [roundCrop_getPixel (img0.convertRGBA.resize 144 144) 72 72 hxc hyc]
      have htrue : inEllipse (img0.convertRGBA.resize 144 144).width
          (img0.convertRGBA.resize 144 144).height 72 72 = true :=
        (by decide : inEllipse 144 144 72 72 = true)
      rw [htrue]
      exact (by decide : (0 : Nat) < 255)
  · refine ⟨img0.convertRGBA.resize 192 192, create_round_crop (img0.convertRGBA.resize 192 192),
      runFrom_launcher_xxxhdpi _ fs, runFrom_round_xxxhdpi _ fs, rfl, rfl, ?_, ?_⟩
    · intro x y hx hy hout
      rw [roundCrop_getPixel (img0.convertRGBA.resize 192 192) x y hx hy]
      have hfalse : inEllipse (img0.convertRGBA.resize 192 192).width
          (img0.convertRGBA.resize 192 192).height x y = false :=
        inEllipse_eq_false_of_outside 192 x y (by norm_num) hout
      rw [hfalse]
      rfl
    · have hxc : 96 < (img0.convertRGBA.resize 192 192).width := (by decide : 96 < 192)
      have hyc : 96 < (img0.convertRGBA.resize 192 192).height := (by decide : 96 < 192)
      show 0 < ((create_round_crop (img0.convertRGBA.resize 192 192)).getPixel 96 96).a
      rw [roundCrop_getPixel (img0.convertRGBA.resize 192 192) 96 96 hxc hyc]
      have htrue : inEllipse (img0.convertRGBA.resize 192 192).width
          (img0.convertRGBA.resize 192 192).height 96 96 = true :=
        (by decide : inEllipse 192 192 96 96 = true)
      rw [htrue]
      exact (by decide : (0 : Nat) < 255)

theorem claim2_round_output_witness :
    (openImage witFS source_image_path = some witImage) ∧
    run witFS = ((run witFS).1, none) ∧
    (¬ fullyTransparent witImage.convertRGBA) ∧
    (("mdpi", 48) ∈ sizes) ∧
    ∃ iL iR : Image,
      (run witFS).1.files (launcherPath "mdpi") = some (File.image iL) ∧
      (run witFS).1.files (roundPath "mdpi") = some (File.image iR) ∧
      iR.width = iL.width ∧ iR.height = iL.height ∧
      (∀ x y : Nat, x < iR.width → y < iR.height → outsideCircle 48 x y →
        (iR.getPixel x y).a = 0) ∧
      0 < (iR.getPixel (48 / 2) (48 / 2)).a :=
  ⟨rfl, rfl,
    fun hft => absurd (hft 0 0 (by decide) (by decide)) (by decide),
    by decide,
    claim2_round_output witFS (run witFS).1 witImage rfl rfl
      (fun hft => absurd (hft 0 0 (by decide) (by decide)) (by decide))
      ("mdpi", 48) (by decide)⟩

/-- **C3**: after a successful run (any readable source image, any
dimensions), each bucket's `ic_launcher.png` is square with the bucket's
prescribed edge length, in RGBA mode. -/
theorem claim3_launcher_outputs (fs fs' : FS) (hrun : run fs = (fs', none)) :
    ∀ e ∈ sizes, ∃ i : Image,
      fs'.files (launcherPath e.1) = some (File.image i) ∧
      i.width = e.2 ∧ i.height = e.2 ∧ i.mode = ImageMode.RGBA := by
  cases hopen : openImage fs source_image_path with
  | none =>
      simp only [run, hopen] at hrun
      simp at hrun
  | some img0 =>
      simp only [run, hopen] at hrun
      injection hrun with hfs hnone
      subst hfs
      intro e he
      fin_cases he
      · exact ⟨_, runFrom_launcher_mdpi _ fs, rfl, rfl, rfl⟩
      · exact ⟨_, runFrom_launcher_hdpi _ fs, rfl, rfl, rfl⟩
      · exact ⟨_, runFrom_launcher_xhdpi _ fs, rfl, rfl, rfl⟩
      · exact ⟨_, runFrom_launcher_xxhdpi _ fs, rfl, rfl, rfl⟩
      · exact ⟨_, runFrom_launcher_xxxhdpi _ fs, rfl, rfl, rfl⟩

theorem claim3_launcher_outputs_witness :
    run witFS = ((run witFS).1, none) ∧ (("xxxhdpi", 192) ∈ sizes) ∧
    ∃ i : Image,
      (run witFS).1.files (launcherPath "xxxhdpi") = some (File.image i) ∧
      i.width = 192 ∧ i.height = 192 ∧ i.mode = ImageMode.RGBA :=
  ⟨rfl, by decide,
    claim3_launcher_outputs witFS (run witFS).1 rfl ("xxxhdpi", 192) (by decide)⟩

/-- **C4**: after a successful run, `drawable/ic_launcher_foreground.png`
holds exactly the 432x432 resize of the original decoded (and
RGBA-converted) source image — not of any bucket's output — whatever the
source dimensions are. -/
theorem claim4_foreground (fs fs' : FS) (img0 : Image)
    (hopen : openImage fs source_image_path = some img0)
    (hrun : run fs = (fs', none)) :
    fs'.files fgPath = some (File.image (img0.convertRGBA.resize 432 432)) ∧
    (img0.convertRGBA.resize 432 432).width = 432 ∧
    (img0.convertRGBA.resize 432 432).height = 432 := by
  simp only [run, hopen] at hrun
  injection hrun with hfs hnone
  subst hfs
  exact ⟨runFrom_fg _ fs, rfl, rfl⟩

theorem claim4_foreground_witness :
    (openImage witFS source_image_path = some witImage) ∧
    run witFS = ((run witFS).1, none) ∧
    ((run witFS).1.files fgPath = some (File.image (witImage.convertRGBA.resize 432 432)) ∧
      (witImage.convertRGBA.resize 432 432).width = 432 ∧
      (witImage.convertRGBA.resize 432 432).height = 432) :=
  ⟨rfl, rfl, claim4_foreground witFS (run witFS).1 witImage rfl rfl⟩

/-- **C5**: when the source image path references no existing file, the
run aborts with a decode error and the filesystem is returned untouched:
no output directory is created and no output file is written. -/
theorem claim5_missing_source (fs : FS)
    (h : fs.files source_image_path = none) :
    run fs = (fs, some RunError.decodeError) := by
  have hopen : openImage fs source_image_path = none := by
    unfold openImage
    rw [h]
  simp only [run, hopen]

theorem claim5_missing_source_witness :
    emptyFS.files source_image_path = none ∧
    run emptyFS = (emptyFS, some RunError.decodeError) :=
  ⟨rfl, claim5_missing_source emptyFS rfl⟩

/-- **C6**: after a run, `ic_launcher_foreground.xml` is absent whenever
the run succeeded and untouched whenever it failed (so a run never
creates it), and the run's success or failure is unchanged by placing any
file at that path (so its absence can never be the cause of a failure). -/
theorem claim6_stale_xml (fs : FS) (f : File) :
    (run fs).1.files xml_path
      = (if (run fs).2 = none then none else fs.files xml_path) ∧
    (run fs).2 = (run (fs.withFile xml_path f)).2 := by
  have hW : (fs.withFile xml_path f).files source_image_path
      = fs.files source_image_path := by
    show (if source_image_path = xml_path then some f else fs.files source_image_path)
        = fs.files source_image_path
    exact if_neg (by decide)
  cases hopen : openImage fs source_image_path with
  | none =>
      have hopen2 : openImage (fs.withFile xml_path f) source_image_path = none := by
        rw [openImage_congr (fs.withFile xml_path f) fs source_image_path hW]
        exact hopen
      refine ⟨?_, ?_⟩
      · simp [run, hopen]
      · simp [run, hopen, hopen2]
  | some img0 =>
      have hopen2 : openImage (fs.withFile xml_path f) source_image_path
          = some img0 := by
        rw [openImage_congr (fs.withFile xml_path f) fs source_image_path hW]
        exact hopen
      refine ⟨?_, ?_⟩
      · simp [run, hopen, runFrom_xml]
      · simp [run, hopen, hopen2]

/-- **C7**: a second run on the filesystem left by a successful run
succeeds and reproduces the very same filesystem — every output of the
second run is identical to the first run's. -/
theorem claim7_idempotent (fs fs' : FS) (h : run fs = (fs', none)) :
    run fs' = (fs', none) := by
  cases hopen : openImage fs source_image_path with
  | none =>
      simp only [run, hopen] at h
      simp at h
  | some img0 =>
      simp only [run, hopen] at h
      injection h with hfs hnone
      subst hfs
      have hopen' : openImage (runFrom img0.convertRGBA fs) source_image_path
          = some img0 := by
        rw [openImage_congr (runFrom img0.convertRGBA fs) fs source_image_path
          (runFrom_source _ fs)]
        exact hopen
      simp only [run, hopen']
      rw [runFrom_idem]

theorem claim7_idempotent_witness :
    run witFS = ((run witFS).1, none) ∧ run (run witFS).1 = ((run witFS).1, none) :=
  ⟨rfl, claim7_idempotent witFS (run witFS).1 rfl⟩

/-- **C8**: processing the five (label, edge-length) pairs in any
permuted order yields exactly the same final filesystem as the script's
own order — the buckets' targets are pairwise disjoint. -/
theorem claim8_order_irrelevant (img : Image) (fs : FS) (l : List (String × Nat))
    (hl : l.Perm sizes) : runFromOrder l img fs = runFrom img fs := by
  unfold runFrom runFromOrder writePhase
  rw [foldl_processBucket_perm img l sizes hl (fun x hx => hl.subset hx)
      (hl.nodup_iff.mpr sizes_nodup) fs]

theorem claim8_order_irrelevant_witness :
    ([(("hdpi" : String), (72 : Nat)), ("mdpi", 48), ("xhdpi", 96), ("xxhdpi", 144),
        ("xxxhdpi", 192)].Perm sizes) ∧
    runFromOrder [("hdpi", 72), ("mdpi", 48), ("xhdpi", 96), ("xxhdpi", 144),
        ("xxxhdpi", 192)] witImage emptyFS
      = runFrom witImage emptyFS :=
  ⟨List.Perm.swap ("mdpi", 48) ("hdpi", 72) [("xhdpi", 96), ("xxhdpi", 144), ("xxxhdpi", 192)],
    claim8_order_irrelevant witImage emptyFS _
      (List.Perm.swap ("mdpi", 48) ("hdpi", 72)
        [("xhdpi", 96), ("xxhdpi", 144), ("xxxhdpi", 192)])⟩

/-- **C9**: every output of a successful run is a pure function of the
one decoded (and RGBA-converted) source image — each bucket output is the
fresh resize of it (round crops derived from that fresh resize), the
foreground is its direct resize, and `Image.copy` hands `putalpha` a copy
while leaving its argument unchanged. -/
theorem claim9_outputs_from_decode (fs fs' : FS) (img0 : Image)
    (hopen : openImage fs source_image_path = some img0)
    (hrun : run fs = (fs', none)) :
    (∀ e ∈ sizes,
      fs'.files (launcherPath e.1)
        = some (File.image (img0.convertRGBA.resize e.2 e.2)) ∧
      fs'.files (roundPath e.1)
        = some (File.image (create_round_crop (img0.convertRGBA.resize e.2 e.2)))) ∧
    fs'.files fgPath = some (File.image (img0.convertRGBA.resize 432 432)) ∧
    (∀ i : Image, Image.copy i = i) := by
  simp only [run, hopen] at hrun
  injection hrun with hfs hnone
  subst hfs
  refine ⟨?_, runFrom_fg _ fs, fun i => rfl⟩
  intro e he
  fin_cases he
  · exact ⟨runFrom_launcher_mdpi _ fs, runFrom_round_mdpi _ fs⟩
  · exact ⟨runFrom_launcher_hdpi _ fs, runFrom_round_hdpi _ fs⟩
  · exact ⟨runFrom_launcher_xhdpi _ fs, runFrom_round_xhdpi _ fs⟩
  · exact ⟨runFrom_launcher_xxhdpi _ fs, runFrom_round_xxhdpi _ fs⟩
  · exact ⟨runFrom_launcher_xxxhdpi _ fs, runFrom_round_xxxhdpi _ fs⟩

theorem claim9_outputs_from_decode_witness :
    (openImage witFS source_image_path = some witImage) ∧
    run witFS = ((run witFS).1, none) ∧
    ((∀ e ∈ sizes,
      (run witFS).1.files (launcherPath e.1)
        = some (File.image (witImage.convertRGBA.resize e.2 e.2)) ∧
      (run witFS).1.files (roundPath e.1)
        = some (File.image (create_round_crop (witImage.convertRGBA.resize e.2 e.2)))) ∧
    (run witFS).1.files fgPath = some (File.image (witImage.convertRGBA.resize 432 432)) ∧
    (∀ i : Image, Image.copy i = i)) :=
  ⟨rfl, rfl, claim9_outputs_from_decode witFS (run witFS).1 witImage rfl rfl⟩

/-- **C10**: the run's effect trace is the eleven image writes (and six
directory creations) followed — last of all, and only then — by the
optional stale-XML removal: the write phase contains exactly eleven
writes and no removal, so if the removal errors, every PNG output has
already been persisted. -/
theorem claim10_writes_before_remove (img : Image) (present : Bool) :
    runEvents img present
      = writeEvents img ++ (if present then [Event.removeEv xml_path] else []) ∧
    (writeEvents img).countP isWriteEv = 11 ∧
    ∀ e ∈ writeEvents img, isRemoveEv e = false := by
  refine ⟨rfl, ?_, ?_⟩
  · rfl
  · intro e he
    fin_cases he <;> rfl

end NFWatch
